import Mathlib

/-!
Verification development for the `ea-woc-league` repository (EA NHL Pro Clubs
statistics aggregation).  The Python data models and operations relevant to the
statistics pipeline are embedded shallowly:

* Python `int` is modelled by `Int` (unbounded in both languages).
* Python `float` is modelled by `ℚ` (exact real arithmetic; the repository only
  ever divides, multiplies and rounds, so no transcendental behaviour is lost).
* Python `dict` is modelled by an association list with first-occurrence
  lookup and update-in-place-or-append insertion, which is exactly the
  observable behaviour of insertion-ordered Python dicts.
* Python `set` is modelled by `Finset`.
* A Python function that can raise is modelled with `Option`/`Except`.
-/

namespace EaWoc

/-- First-occurrence lookup in an association list: `d[k]` / `d.get(k)`. -/
def dlookup {κ α : Type} [DecidableEq κ] : List (κ × α) → κ → Option α
  | [], _ => none
  | (k', v) :: rest, k => if k' = k then some v else dlookup rest k

/-- Python dict assignment `d[k] = v`: replace the (unique) existing binding
in place, otherwise append the new binding at the end. -/
def dinsert {κ α : Type} [DecidableEq κ] : List (κ × α) → κ → α → List (κ × α)
  | [], k, v => [(k, v)]
  | (k', v') :: rest, k, v =>
      if k' = k then (k, v) :: rest else (k', v') :: dinsert rest k v

/-- `d.values()` in insertion order. -/
def dvalues {κ α : Type} (l : List (κ × α)) : List α :=
  l.map Prod.snd

/-- Number of bindings carrying a given key (a well-formed dict has at most
one). -/
def countKey {κ α : Type} [DecidableEq κ] (l : List (κ × α)) (k : κ) : Nat :=
  (l.filter (fun kv => kv.1 = k)).length

/-- A JSON-like value as produced by parsing the upstream API payload:
a string, an integer number, a non-integer number, or `null`/`None`. -/
inductive JsonVal : Type
  | vStr (s : String)
  | vInt (n : Int)
  | vFloat (q : ℚ)
  | vNull
deriving DecidableEq

/-- A raw record payload: a JSON object, field name to value. -/
abbrev Payload := List (String × JsonVal)

/-- Digits of a decimal string as a natural number (no sign, no dot). -/
def decDigitsL (l : List Char) : Nat :=
  l.foldl (fun n c => n * 10 + (c.toNat - '0'.toNat)) 0

/-- Python `int(s)` on a string: parse an optionally signed decimal integer,
failing on anything else (in particular on the sentinel `"--"`).
(Python additionally strips surrounding whitespace and allows `_` digit
separators; neither occurs in the payloads this repository consumes.) -/
def pyIntOfString (s : String) : Option Int :=
  match s.toList with
  | [] => none
  | '-' :: rest =>
      if rest.length > 0 && rest.all Char.isDigit then
        some (-(decDigitsL rest : Int))
      else none
  | '+' :: rest =>
      if rest.length > 0 && rest.all Char.isDigit then
        some (decDigitsL rest : Int)
      else none
  | l =>
      if l.all Char.isDigit then some (decDigitsL l : Int) else none

/-- Digits of a decimal string as a natural number (no sign, no dot). -/
def decDigits (s : String) : Nat :=
  decDigitsL s.toList

/-- Python `float(s)` on a plain decimal string `[±]digits[.digits]`.
(Python also accepts exponents, `inf` and `nan`; none of those occur in the
payloads this repository consumes.) -/
def pyFloatOfString (s : String) : Option ℚ :=
  let core : String → Option ℚ := fun t =>
    match t.splitOn "." with
    | [a] =>
        if a.length > 0 && a.toList.all Char.isDigit then
          some (decDigits a : ℚ)
        else none
    | [a, b] =>
        if (a.length > 0 || b.length > 0)
            && a.toList.all Char.isDigit && b.toList.all Char.isDigit then
          some ((decDigits a : ℚ) + (decDigits b : ℚ) / ((10 : ℚ) ^ b.length))
        else none
    | _ => none
  if s.startsWith "-" then (core (s.drop 1)).map (fun q => -q)
  else if s.startsWith "+" then core (s.drop 1)
  else core s

/-- Python `round(x, 2)` on the exact value: round to 2 decimal places with
ties going to the even hundredth (banker's rounding, as Python's `round`). -/
def pyRound2 (q : ℚ) : ℚ :=
  let x : ℚ := q * 100
  let f : ℤ := x.floor
  let frac : ℚ := x - (f : ℚ)
  let r : ℤ :=
    if frac < 1 / 2 then f
    else if 1 / 2 < frac then f + 1
    else if f % 2 = 0 then f else f + 1
  (r : ℚ) / 100

end EaWoc

namespace EaWoc.GameBase

/-- `NumericValidatorBase.handle_dashes` (src/ea_nhl_stats/models/game/base.py,
lines 26-44): the `mode="before"` model validator that walks the whole record
and replaces every value equal to the literal string `"--"` with `None`,
leaving every other value untouched.  (The Python function passes non-dict
input through unchanged; a typed `Payload` is always a dict.) -/
def handle_dashes (data : Payload) : Payload :=
  data.map (fun kv => if kv.2 = JsonVal.vStr "--" then (kv.1, JsonVal.vNull) else kv)

end EaWoc.GameBase

namespace EaWoc.GameEA

open EaWoc

/-- `PlayerStats` (src/ea_nhl_stats/models/game/ea_player_stats.py): one
player's full statistic line for one game, every field required.  Field names
follow the Python attribute names; ints are `Int`, floats are `ℚ`, strings are
`String`.  Note this model derives from plain `BaseModel` (not
`NumericValidatorBase`), so it has no `"--"` pre-processing pass. -/
structure PlayerStats : Type where
  player_level : Int
  position : String
  pos_sorted : Int
  player_name : String
  client_platform : String
  player_level_display : Int
  is_guest : Int
  player_dnf : Int
  pnhl_online_game_type : String
  team_id : Int
  team_side : Int
  opponent_club_id : String
  opponent_team_id : Int
  opponent_score : Int
  score : Int
  rating_defense : ℚ
  rating_offense : ℚ
  rating_teamplay : ℚ
  toi : Int
  toi_seconds : Int
  skassists : Int
  skbs : Int
  skdeflections : Int
  skfol : Int
  skfopct : ℚ
  skfow : Int
  skgiveaways : Int
  skgoals : Int
  skgwg : Int
  skhits : Int
  skinterceptions : Int
  skpassattempts : Int
  skpasses : Int
  skpasspct : ℚ
  skpenaltiesdrawn : Int
  skpim : Int
  skpkclearzone : Int
  skplusmin : Int
  skpossession : Int
  skppg : Int
  sksaucerpasses : Int
  skshg : Int
  skshotattempts : Int
  skshotonnetpct : ℚ
  skshotpct : ℚ
  skshots : Int
  sktakeaways : Int
  glbrksavepct : ℚ
  glbrksaves : Int
  glbrkshots : Int
  gldsaves : Int
  glga : Int
  glgaa : ℚ
  glpensavepct : ℚ
  glpensaves : Int
  glpenshots : Int
  glpkclearzone : Int
  glpokechecks : Int
  glsavepct : ℚ
  glsaves : Int
  glshots : Int
  glsoperiods : Int
deriving DecidableEq

/-- Fetch a required field of the payload; pydantic reports a validation error
naming the field when it is missing. -/
def getField (data : Payload) (k : String) : Except String JsonVal :=
  match dlookup data k with
  | some v => Except.ok v
  | none => Except.error (k ++ ": field required")

/-- Validation of one `int`-typed field: the `mode="before"` validator
`PlayerStats.convert_to_int` (`int(v) if isinstance(v, str) else v`) followed
by pydantic's int check (`None` is rejected, an integral float is coerced). -/
def validateInt (k : String) (v : JsonVal) : Except String Int :=
  match v with
  | JsonVal.vStr s =>
      match pyIntOfString s with
      | some n => Except.ok n
      | none => Except.error (k ++ ": value is not a valid integer")
  | JsonVal.vInt n => Except.ok n
  | JsonVal.vFloat q =>
      if q.den = 1 then Except.ok q.num
      else Except.error (k ++ ": value is not a valid integer")
  | JsonVal.vNull => Except.error (k ++ ": int type expected, got None")

/-- Validation of one `float`-typed field: the `mode="before"` validator
`PlayerStats.convert_to_float` (`float(v) if isinstance(v, str) else v`)
followed by pydantic's float check. -/
def validateFloat (k : String) (v : JsonVal) : Except String ℚ :=
  match v with
  | JsonVal.vStr s =>
      match pyFloatOfString s with
      | some q => Except.ok q
      | none => Except.error (k ++ ": value is not a valid number")
  | JsonVal.vInt n => Except.ok (n : ℚ)
  | JsonVal.vFloat q => Except.ok q
  | JsonVal.vNull => Except.error (k ++ ": float type expected, got None")

/-- Validation of one `str`-typed field (pydantic v2 default: only a string is
accepted). -/
def validateStr (k : String) (v : JsonVal) : Except String String :=
  match v with
  | JsonVal.vStr s => Except.ok s
  | _ => Except.error (k ++ ": str type expected")

/-- Required int field by its payload alias. -/
def reqInt (data : Payload) (k : String) : Except String Int := do
  validateInt k (← getField data k)

/-- Required float field by its payload alias. -/
def reqFloat (data : Payload) (k : String) : Except String ℚ := do
  validateFloat k (← getField data k)

/-- Required str field by its payload alias. -/
def reqStr (data : Payload) (k : String) : Except String String := do
  validateStr k (← getField data k)

/-- Constructing `PlayerStats` from a raw payload: each field is read under
its upstream alias and put through its per-field validator.  There is no
whole-record `"--"` pre-processing here; pydantic collects all field errors
while this embedding stops at the first, which does not change whether
validation succeeds. -/
def parsePlayerStats (data : Payload) : Except String PlayerStats := do
  let player_level ← reqInt data "class"
  let position ← reqStr data "position"
  let pos_sorted ← reqInt data "posSorted"
  let player_name ← reqStr data "playername"
  let client_platform ← reqStr data "clientPlatform"
  let player_level_display ← reqInt data "playerLevel"
  let is_guest ← reqInt data "isGuest"
  let player_dnf ← reqInt data "player_dnf"
  let pnhl_online_game_type ← reqStr data "pNhlOnlineGameType"
  let team_id ← reqInt data "teamId"
  let team_side ← reqInt data "teamSide"
  let opponent_club_id ← reqStr data "opponentClubId"
  let opponent_team_id ← reqInt data "opponentTeamId"
  let opponent_score ← reqInt data "opponentScore"
  let score ← reqInt data "score"
  let rating_defense ← reqFloat data "ratingDefense"
  let rating_offense ← reqFloat data "ratingOffense"
  let rating_teamplay ← reqFloat data "ratingTeamplay"
  let toi ← reqInt data "toi"
  let toi_seconds ← reqInt data "toiseconds"
  let skassists ← reqInt data "skassists"
  let skbs ← reqInt data "skbs"
  let skdeflections ← reqInt data "skdeflections"
  let skfol ← reqInt data "skfol"
  let skfopct ← reqFloat data "skfopct"
  let skfow ← reqInt data "skfow"
  let skgiveaways ← reqInt data "skgiveaways"
  let skgoals ← reqInt data "skgoals"
  let skgwg ← reqInt data "skgwg"
  let skhits ← reqInt data "skhits"
  let skinterceptions ← reqInt data "skinterceptions"
  let skpassattempts ← reqInt data "skpassattempts"
  let skpasses ← reqInt data "skpasses"
  let skpasspct ← reqFloat data "skpasspct"
  let skpenaltiesdrawn ← reqInt data "skpenaltiesdrawn"
  let skpim ← reqInt data "skpim"
  let skpkclearzone ← reqInt data "skpkclearzone"
  let skplusmin ← reqInt data "skplusmin"
  let skpossession ← reqInt data "skpossession"
  let skppg ← reqInt data "skppg"
  let sksaucerpasses ← reqInt data "sksaucerpasses"
  let skshg ← reqInt data "skshg"
  let skshotattempts ← reqInt data "skshotattempts"
  let skshotonnetpct ← reqFloat data "skshotonnetpct"
  let skshotpct ← reqFloat data "skshotpct"
  let skshots ← reqInt data "skshots"
  let sktakeaways ← reqInt data "sktakeaways"
  let glbrksavepct ← reqFloat data "glbrksavepct"
  let glbrksaves ← reqInt data "glbrksaves"
  let glbrkshots ← reqInt data "glbrkshots"
  let gldsaves ← reqInt data "gldsaves"
  let glga ← reqInt data "glga"
  let glgaa ← reqFloat data "glgaa"
  let glpensavepct ← reqFloat data "glpensavepct"
  let glpensaves ← reqInt data "glpensaves"
  let glpenshots ← reqInt data "glpenshots"
  let glpkclearzone ← reqInt data "glpkclearzone"
  let glpokechecks ← reqInt data "glpokechecks"
  let glsavepct ← reqFloat data "glsavepct"
  let glsaves ← reqInt data "glsaves"
  let glshots ← reqInt data "glshots"
  let glsoperiods ← reqInt data "glsoperiods"
  pure {
    player_level := player_level
    position := position
    pos_sorted := pos_sorted
    player_name := player_name
    client_platform := client_platform
    player_level_display := player_level_display
    is_guest := is_guest
    player_dnf := player_dnf
    pnhl_online_game_type := pnhl_online_game_type
    team_id := team_id
    team_side := team_side
    opponent_club_id := opponent_club_id
    opponent_team_id := opponent_team_id
    opponent_score := opponent_score
    score := score
    rating_defense := rating_defense
    rating_offense := rating_offense
    rating_teamplay := rating_teamplay
    toi := toi
    toi_seconds := toi_seconds
    skassists := skassists
    skbs := skbs
    skdeflections := skdeflections
    skfol := skfol
    skfopct := skfopct
    skfow := skfow
    skgiveaways := skgiveaways
    skgoals := skgoals
    skgwg := skgwg
    skhits := skhits
    skinterceptions := skinterceptions
    skpassattempts := skpassattempts
    skpasses := skpasses
    skpasspct := skpasspct
    skpenaltiesdrawn := skpenaltiesdrawn
    skpim := skpim
    skpkclearzone := skpkclearzone
    skplusmin := skplusmin
    skpossession := skpossession
    skppg := skppg
    sksaucerpasses := sksaucerpasses
    skshg := skshg
    skshotattempts := skshotattempts
    skshotonnetpct := skshotonnetpct
    skshotpct := skshotpct
    skshots := skshots
    sktakeaways := sktakeaways
    glbrksavepct := glbrksavepct
    glbrksaves := glbrksaves
    glbrkshots := glbrkshots
    gldsaves := gldsaves
    glga := glga
    glgaa := glgaa
    glpensavepct := glpensavepct
    glpensaves := glpensaves
    glpenshots := glpenshots
    glpkclearzone := glpkclearzone
    glpokechecks := glpokechecks
    glsavepct := glsavepct
    glsaves := glsaves
    glshots := glshots
    glsoperiods := glsoperiods
  }

/-- `CustomKit` (src/ea_nhl_stats/models/game/ea_club_stats.py). -/
structure CustomKit : Type where
  is_custom_team : Int
  crest_asset_id : String
  use_base_asset : Int
deriving DecidableEq

/-- `ClubDetails` (src/ea_nhl_stats/models/game/ea_club_stats.py). -/
structure ClubDetails : Type where
  name : String
  club_id : Int
  region_id : Int
  team_id : Int
  custom_kit : CustomKit
deriving DecidableEq

/-- `ClubStats` (src/ea_nhl_stats/models/game/ea_club_stats.py): one club's
per-game line. -/
structure ClubStats : Type where
  club_division : Int
  cnhl_online_game_type : String
  goals_against_raw : Int
  goals_for_raw : Int
  losses : Int
  result : Int
  score : Int
  score_string : String
  winner_by_dnf : Int
  winner_by_goalie_dnf : Int
  member_string : String
  passes_attempted : Int
  passes_completed : Int
  powerplay_goals : Int
  powerplay_opportunities : Int
  shots : Int
  team_art_abbr : String
  team_side : Int
  time_on_attack : Int
  opponent_club_id : String
  opponent_score : Int
  opponent_team_art_abbr : String
  details : ClubDetails
  goals : Int
  goals_against : Int
deriving DecidableEq

/-- `AggregateStats` (src/ea_nhl_stats/models/game/ea_club_stats.py): the
upstream API's pre-summed per-club rollup, same shape as a player line. -/
structure AggregateStats : Type where
  club_level : Int
  position : Int
  pos_sorted : Int
  is_guest : Int
  player_dnf : Int
  player_level : Int
  team_id : Int
  team_side : Int
  opponent_club_id : Int
  opponent_team_id : Int
  opponent_score : Int
  score : Int
  rating_defense : ℚ
  rating_offense : ℚ
  rating_teamplay : ℚ
  toi : Int
  toi_seconds : Int
  skassists : Int
  skbs : Int
  skdeflections : Int
  skfol : Int
  skfopct : ℚ
  skfow : Int
  skgiveaways : Int
  skgoals : Int
  skgwg : Int
  skhits : Int
  skinterceptions : Int
  skpassattempts : Int
  skpasses : Int
  skpasspct : ℚ
  skpenaltiesdrawn : Int
  skpim : Int
  skpkclearzone : Int
  skplusmin : Int
  skpossession : Int
  skppg : Int
  sksaucerpasses : Int
  skshg : Int
  skshotattempts : Int
  skshotonnetpct : ℚ
  skshotpct : ℚ
  skshots : Int
  sktakeaways : Int
  glbrksavepct : ℚ
  glbrksaves : Int
  glbrkshots : Int
  gldsaves : Int
  glga : Int
  glgaa : ℚ
  glpensavepct : ℚ
  glpensaves : Int
  glpenshots : Int
  glpkclearzone : Int
  glpokechecks : Int
  glsavepct : ℚ
  glsaves : Int
  glshots : Int
  glsoperiods : Int
deriving DecidableEq

/-- `TimeAgo` (src/ea_nhl_stats/models/game/ea_match.py). -/
structure TimeAgo : Type where
  number : Int
  unit : String
deriving DecidableEq

/-- `Match` (src/ea_nhl_stats/models/game/ea_match.py): one game's full
picture — identification plus the three club-id-keyed mappings. -/
structure Match : Type where
  match_id : String
  timestamp : Int
  time_ago : TimeAgo
  clubs : List (String × ClubStats)
  players : List (String × List (String × PlayerStats))
  aggregate : List (String × AggregateStats)
deriving DecidableEq

/-- `Match.home_club_id`: scan `clubs` in insertion order for the first entry
whose `team_side` is 0; `None` when no club is marked home. -/
def home_club_id (m : Match) : Option String :=
  (m.clubs.find? (fun kv => kv.2.team_side = 0)).map Prod.fst

/-- `Match.away_club_id`: first entry of `clubs` whose `team_side` is 1. -/
def away_club_id (m : Match) : Option String :=
  (m.clubs.find? (fun kv => kv.2.team_side = 1)).map Prod.fst

/-- `Match.home_club`: `clubs.get(home_club_id)` when a home id exists. -/
def home_club (m : Match) : Option ClubStats :=
  (home_club_id m).bind (fun cid => dlookup m.clubs cid)

/-- `Match.away_club`. -/
def away_club (m : Match) : Option ClubStats :=
  (away_club_id m).bind (fun cid => dlookup m.clubs cid)

/-- `Match.get_club_players`: nested lookup, empty dict when absent. -/
def get_club_players (m : Match) (club_id : String) : List (String × PlayerStats) :=
  (dlookup m.players club_id).getD []

/-- `Match.get_player_stats`: nested lookup, `None` when absent. -/
def get_player_stats (m : Match) (club_id player_id : String) : Option PlayerStats :=
  dlookup (get_club_players m club_id) player_id

/-- `EfficiencyMetrics` (src/ea_nhl_stats/models/game/match_analytics.py). -/
structure EfficiencyMetrics : Type where
  home_shooting_efficiency : ℚ
  away_shooting_efficiency : ℚ
  home_passing_efficiency : ℚ
  away_passing_efficiency : ℚ
  home_possession_efficiency : ℚ
  away_possession_efficiency : ℚ
deriving DecidableEq

/-- `MatchAnalytics.get_efficiency_metrics` (match_analytics.py, lines
98-122): `None` when either club is missing; otherwise per-side shooting and
passing percentages (0.0 on a zero denominator, and with **no rounding**) and
the time-on-attack share of a fixed 3600-second game. -/
def get_efficiency_metrics (m : Match) : Option EfficiencyMetrics :=
  match home_club m, away_club m with
  | some hc, some ac =>
      some {
        home_shooting_efficiency :=
          if (0 : ℚ) < (hc.shots : ℚ) then (hc.goals : ℚ) / (hc.shots : ℚ) * 100 else 0
        away_shooting_efficiency :=
          if (0 : ℚ) < (ac.shots : ℚ) then (ac.goals : ℚ) / (ac.shots : ℚ) * 100 else 0
        home_passing_efficiency :=
          if (0 : ℚ) < (hc.passes_attempted : ℚ) then
            (hc.passes_completed : ℚ) / (hc.passes_attempted : ℚ) * 100 else 0
        away_passing_efficiency :=
          if (0 : ℚ) < (ac.passes_attempted : ℚ) then
            (ac.passes_completed : ℚ) / (ac.passes_attempted : ℚ) * 100 else 0
        home_possession_efficiency := (hc.time_on_attack : ℚ) / 3600 * 100
        away_possession_efficiency := (ac.time_on_attack : ℚ) / 3600 * 100
      }
  | _, _ => none

end EaWoc.GameEA

namespace EaWoc.League

open EaWoc

/-- `ManagerRole` (src/ea_nhl_stats/league/enums/types.py). -/
inductive ManagerRole : Type
  | owner
  | gm
  | agm
  | paid_agm
deriving DecidableEq

/-- `Position` (src/ea_nhl_stats/league/enums/types.py).  The separate
`league_v2.enums.types` module is imported by the v2 models but is not in the
source tree; its `Position`/`ManagerRole` are taken to be these (the claims
never depend on the members). -/
inductive Position : Type
  | center
  | left_wing
  | right_wing
  | left_defense
  | right_defense
  | goalie
deriving DecidableEq

/-- `LeagueLevel` (src/ea_nhl_stats/league/enums/league_level.py). -/
inductive LeagueLevel : Type
  | nhl
  | ahl
  | echl
deriving DecidableEq

/-- `TeamStats` (src/ea_nhl_stats/league/models/stats/team_stats.py): the
team-granularity season accumulator.  All counter fields are `ge=0`-validated
ints at construction; `add_match` mutates them without re-validation, so they
are modelled as plain `Int`.  Matches are keyed by match-id string. -/
structure TeamStats : Type where
  matches_played : Int := 0
  -- the Python field is named `matches`, which is a reserved word in Lean
  matches_map : List (String × GameEA.ClubStats) := []
  wins : Int := 0
  losses : Int := 0
  goals_for : Int := 0
  goals_against : Int := 0
  shots : Int := 0
  shots_against : Int := 0
  powerplay_goals : Int := 0
  powerplay_opportunities : Int := 0
  penalty_kill_goals_against : Int := 0
  penalty_kill_opportunities : Int := 0
  time_on_attack : Int := 0
deriving DecidableEq

/-- `TeamStats.add_match` (team_stats.py, lines 108-135): store the club stat
under the match id, bump `matches_played`, classify win/loss by `goals >
goals_against` of that match, and add goals/shots/powerplay/time-on-attack
to the running totals.  (`shots_against` and the two penalty-kill counters are
not touched.) -/
def add_match (ts : TeamStats) (match_id : String) (stats : GameEA.ClubStats) :
    TeamStats :=
  { ts with
    matches_map := dinsert ts.matches_map match_id stats
    matches_played := ts.matches_played + 1
    wins := if stats.goals > stats.goals_against then ts.wins + 1 else ts.wins
    losses := if stats.goals > stats.goals_against then ts.losses else ts.losses + 1
    goals_for := ts.goals_for + stats.goals
    goals_against := ts.goals_against + stats.goals_against
    shots := ts.shots + stats.shots
    powerplay_goals := ts.powerplay_goals + stats.powerplay_goals
    powerplay_opportunities :=
      ts.powerplay_opportunities + stats.powerplay_opportunities
    time_on_attack := ts.time_on_attack + stats.time_on_attack }

/-- `TeamStats.points`: 2 per win. -/
def points (ts : TeamStats) : Int :=
  ts.wins * 2

/-- `TeamStats.win_percentage`. -/
def win_percentage (ts : TeamStats) : ℚ :=
  if ts.matches_played = 0 then 0
  else pyRound2 ((ts.wins : ℚ) / (ts.matches_played : ℚ) * 100)

/-- `TeamStats.goals_per_game`. -/
def goals_per_game (ts : TeamStats) : ℚ :=
  if ts.matches_played = 0 then 0
  else pyRound2 ((ts.goals_for : ℚ) / (ts.matches_played : ℚ))

/-- `TeamStats.goals_against_per_game`. -/
def goals_against_per_game (ts : TeamStats) : ℚ :=
  if ts.matches_played = 0 then 0
  else pyRound2 ((ts.goals_against : ℚ) / (ts.matches_played : ℚ))

/-- `TeamStats.goal_differential`: goals for minus goals against. -/
def goal_differential (ts : TeamStats) : Int :=
  ts.goals_for - ts.goals_against

/-- `TeamStats.shooting_percentage`. -/
def shooting_percentage (ts : TeamStats) : ℚ :=
  if ts.shots = 0 then 0
  else pyRound2 ((ts.goals_for : ℚ) / (ts.shots : ℚ) * 100)

/-- `TeamStats.powerplay_percentage`. -/
def powerplay_percentage (ts : TeamStats) : ℚ :=
  if ts.powerplay_opportunities = 0 then 0
  else pyRound2 ((ts.powerplay_goals : ℚ) / (ts.powerplay_opportunities : ℚ) * 100)

/-- `TeamStats.penalty_kill_percentage` (team_stats.py, lines 189-196):
`100.0` when there were no shorthanded opportunities, else the prevented
share. -/
def penalty_kill_percentage (ts : TeamStats) : ℚ :=
  if ts.penalty_kill_opportunities = 0 then 100
  else
    pyRound2 (((ts.penalty_kill_opportunities - ts.penalty_kill_goals_against : Int) : ℚ) /
      (ts.penalty_kill_opportunities : ℚ) * 100)

/-- `TeamStats.time_on_attack_per_game`. -/
def time_on_attack_per_game (ts : TeamStats) : ℚ :=
  if ts.matches_played = 0 then 0
  else pyRound2 ((ts.time_on_attack : ℚ) / (ts.matches_played : ℚ))

/-- `PlayerStats` (src/ea_nhl_stats/league/models/stats/player_stats.py): the
player-granularity accumulator — a per-game map plus a games counter; every
total is derived on read.  Game keys are UUIDs in Python, modelled as
strings. -/
structure PlayerStats : Type where
  games_played : Int := 0
  game_stats : List (String × GameEA.PlayerStats) := []
  positions : Finset Position := ∅
deriving DecidableEq

/-- `PlayerStats.goals`: summed from the per-game map on every read. -/
def goals (ps : PlayerStats) : Int :=
  ((dvalues ps.game_stats).map GameEA.PlayerStats.skgoals).sum

/-- `PlayerStats.assists`. -/
def assists (ps : PlayerStats) : Int :=
  ((dvalues ps.game_stats).map GameEA.PlayerStats.skassists).sum

/-- `PlayerStats.points`. -/
def player_points (ps : PlayerStats) : Int :=
  goals ps + assists ps

/-- `PlayerStats.shots`. -/
def shots (ps : PlayerStats) : Int :=
  ((dvalues ps.game_stats).map GameEA.PlayerStats.skshots).sum

/-- `PlayerStats.takeaways`. -/
def takeaways (ps : PlayerStats) : Int :=
  ((dvalues ps.game_stats).map GameEA.PlayerStats.sktakeaways).sum

/-- `PlayerStats.giveaways`. -/
def giveaways (ps : PlayerStats) : Int :=
  ((dvalues ps.game_stats).map GameEA.PlayerStats.skgiveaways).sum

/-- `PlayerStats.shooting_percentage` (derived, zero-denominator-safe). -/
def player_shooting_percentage (ps : PlayerStats) : ℚ :=
  if shots ps = 0 then 0
  else pyRound2 ((goals ps : ℚ) / (shots ps : ℚ) * 100)

/-- `PlayerStats.takeaway_giveaway_ratio` (player_stats.py, lines 111-117):
`0.0` when there are no giveaways. -/
def takeaway_giveaway_ratio (ps : PlayerStats) : ℚ :=
  if giveaways ps = 0 then 0
  else pyRound2 ((takeaways ps : ℚ) / (giveaways ps : ℚ))

/-- `LeagueTeam` (src/ea_nhl_stats/league/models/teams/base_team.py): team
identity, EA link, accumulator, historical and current rosters, and the
management mapping.  Player UUIDs are modelled as strings. -/
structure LeagueTeam : Type where
  id : String
  official_name : String
  league_level : LeagueLevel
  ea_club_id : Option String := none
  ea_club_name : Option String := none
  stats : TeamStats := {}
  historical_players : List (String × PlayerStats) := []
  current_roster : Finset String := ∅
  management : List (String × ManagerRole) := []
deriving DecidableEq

/-- `LeagueTeam.add_roster_player` (base_team.py, lines 50-64). -/
def add_roster_player (t : LeagueTeam) (player_id : String) : LeagueTeam :=
  { t with
    current_roster := insert player_id t.current_roster
    historical_players :=
      if (dlookup t.historical_players player_id).isSome then t.historical_players
      else dinsert t.historical_players player_id {} }

/-- `LeagueTeam.remove_roster_player` (base_team.py, lines 66-77): discard the
id from the current roster **unless** it is a key of the management mapping,
in which case nothing happens. -/
def remove_roster_player (t : LeagueTeam) (player_id : String) : LeagueTeam :=
  if (dlookup t.management player_id).isSome then t
  else { t with current_roster := t.current_roster.erase player_id }

/-- `LeagueTeam.add_manager` (base_team.py, lines 79-89). -/
def add_manager (t : LeagueTeam) (player_id : String) (role : ManagerRole) :
    LeagueTeam :=
  let t1 := add_roster_player t player_id
  { t1 with management := dinsert t1.management player_id role }

/-- `LeagueTeam.remove_manager` (base_team.py, lines 91-98): drop only the
management role. -/
def remove_manager (t : LeagueTeam) (player_id : String) : LeagueTeam :=
  { t with management := t.management.filter (fun kv => kv.1 ≠ player_id) }

end EaWoc.League

namespace EaWoc.LeagueV2

open EaWoc

/-- `SeasonStats` (src/ea_nhl_stats/league_v2/models/player.py, lines 18-131):
per-season accumulator — season number, games counter, per-game map, positions
set; every total is a computed property over the per-game map. -/
structure SeasonStats : Type where
  season : Int
  games_played : Int := 0
  game_stats : List (String × GameEA.PlayerStats) := []
  positions : Finset League.Position := ∅
deriving DecidableEq

/-- `SeasonStats.goals`: `sum(stats.skgoals for stats in game_stats.values())`,
recomputed on each read. -/
def goals (s : SeasonStats) : Int :=
  ((dvalues s.game_stats).map GameEA.PlayerStats.skgoals).sum

/-- `SeasonStats.assists`. -/
def assists (s : SeasonStats) : Int :=
  ((dvalues s.game_stats).map GameEA.PlayerStats.skassists).sum

/-- `SeasonStats.points`. -/
def points (s : SeasonStats) : Int :=
  goals s + assists s

/-- `SeasonStats.shots`. -/
def shots (s : SeasonStats) : Int :=
  ((dvalues s.game_stats).map GameEA.PlayerStats.skshots).sum

/-- `SeasonStats.hits`. -/
def hits (s : SeasonStats) : Int :=
  ((dvalues s.game_stats).map GameEA.PlayerStats.skhits).sum

/-- `SeasonStats.takeaways`. -/
def takeaways (s : SeasonStats) : Int :=
  ((dvalues s.game_stats).map GameEA.PlayerStats.sktakeaways).sum

/-- `SeasonStats.giveaways`. -/
def giveaways (s : SeasonStats) : Int :=
  ((dvalues s.game_stats).map GameEA.PlayerStats.skgiveaways).sum

/-- `SeasonStats.penalty_minutes`. -/
def penalty_minutes (s : SeasonStats) : Int :=
  ((dvalues s.game_stats).map GameEA.PlayerStats.skpim).sum

/-- `SeasonStats.plus_minus`. -/
def plus_minus (s : SeasonStats) : Int :=
  ((dvalues s.game_stats).map GameEA.PlayerStats.skplusmin).sum

/-- `SeasonStats.shooting_percentage` (player.py, lines 109-115): `0.0` when
there are no shots, else `round(goals/shots*100, 2)`. -/
def shooting_percentage (s : SeasonStats) : ℚ :=
  if shots s = 0 then 0
  else pyRound2 ((goals s : ℚ) / (shots s : ℚ) * 100)

/-- `SeasonStats.points_per_game`. -/
def points_per_game (s : SeasonStats) : ℚ :=
  if s.games_played = 0 then 0
  else pyRound2 ((points s : ℚ) / (s.games_played : ℚ))

/-- `SeasonStats.takeaway_giveaway_ratio`. -/
def takeaway_giveaway_ratio (s : SeasonStats) : ℚ :=
  if giveaways s = 0 then 0
  else pyRound2 ((takeaways s : ℚ) / (giveaways s : ℚ))

/-- Is a character one of `0-9a-fA-F`? -/
def isHexChar (c : Char) : Bool :=
  c.isDigit || ('a' ≤ c && c ≤ 'f') || ('A' ≤ c && c ≤ 'F')

/-- The game key built in `add_game_stats` (player.py, lines 212-214):
`hex_str = match.match_id[:32].ljust(32, '0'); match_uuid = UUID(hex_str)`.
The UUID value is determined by the padded 32-character string up to hex-digit
case, so the key is modelled as that string lower-cased.  `uuid.UUID` raises
(`None` here) unless, after its brace/dash/urn stripping, exactly 32 hex
digits remain — for a 32-character input that means every character must be a
hex digit. -/
def matchKey (match_id : String) : Option String :=
  let taken := match_id.toList.take 32
  let hex_chars := taken ++ List.replicate (32 - taken.length) '0'
  if hex_chars.all isHexChar then some (String.mk (hex_chars.map Char.toLower))
  else none

/-- `LeaguePlayer` (src/ea_nhl_stats/league_v2/models/player.py, lines
134-217): player identity plus the season-keyed stats map.  UUIDs are
modelled as strings. -/
structure LeaguePlayer : Type where
  id : String
  name : String
  position : League.Position
  team_id : Option String := none
  current_season : Int
  season_stats : List (Int × SeasonStats) := []
  ea_id : Option String := none
  ea_name : Option String := none
  discord_id : Option String := none
deriving DecidableEq

/-- `LeaguePlayer.add_game_stats` (player.py, lines 180-217): no-op when the
player has no (non-empty) EA id, the club is not in the match, or the player
is not in the club's player map; otherwise create the current season's
`SeasonStats` if absent, bump its `games_played`, and store the game's stats
under the UUID key built from the first 32 characters of the match id.
`None` models the `uuid.UUID` constructor raising on a non-hex id (Python
would already have incremented `games_played` when that happens; no claim
touches that corner). -/
def add_game_stats (p : LeaguePlayer) (m : GameEA.Match) (club_id : String) :
    Option LeaguePlayer :=
  match p.ea_id with
  | none => some p
  | some eid =>
    if eid = "" then some p
    else
      match dlookup m.players club_id with
      | none => some p
      | some club_players =>
        match dlookup club_players eid with
        | none => some p
        | some player_stats =>
          let season_stats :=
            if (dlookup p.season_stats p.current_season).isSome then
              p.season_stats
            else
              dinsert p.season_stats p.current_season { season := p.current_season }
          match dlookup season_stats p.current_season with
          | none => none
          | some season =>
            match matchKey m.match_id with
            | none => none
            | some key =>
              let season2 : SeasonStats :=
                { season with
                  games_played := season.games_played + 1,
                  game_stats := dinsert season.game_stats key player_stats,
                  positions := insert p.position season.positions }
              some { p with
                     season_stats := dinsert season_stats p.current_season season2 }

/-- The games-played count of a player's current season (0 when the season
has no stats container yet). -/
def current_games_played (p : LeaguePlayer) : Int :=
  match dlookup p.season_stats p.current_season with
  | some s => s.games_played
  | none => 0

/-- The per-game map of a player's current season (empty when the season has
no stats container yet). -/
def current_game_stats (p : LeaguePlayer) : List (String × GameEA.PlayerStats) :=
  match dlookup p.season_stats p.current_season with
  | some s => s.game_stats
  | none => []

end EaWoc.LeagueV2

namespace EaWoc.GameTS

/-- `TeamStats._calculate_major_minor_penalties`
(src/ea_nhl_stats/models/game/team_stats.py, lines 125-142), inner `while`
loop: starting from `n_major_pens = 0`, increment while
`(P - n_major_pens * 5) % 2 != 0` (Python `%` on ints is floor-mod,
`Int.fmod`).  The loop is modelled with explicit fuel; `none` means the fuel
ran out before the condition became false. -/
def findMajorPens (P : Int) : Int → Nat → Option Int
  | n, 0 => if (P - n * 5).fmod 2 = 0 then some n else none
  | n, fuel + 1 => if (P - n * 5).fmod 2 = 0 then some n else findMajorPens P (n + 1) fuel

/-- `TeamStats._calculate_major_minor_penalties`: the major count from the
search loop, and the minors as the floor-division (`//`) of the remaining
minutes by 2 — which goes negative when the remainder is negative. -/
def calculate_major_minor_penalties (penalty_minutes : Int) : Option (Int × Int) :=
  (findMajorPens penalty_minutes 0 (penalty_minutes.natAbs + 2)).map
    (fun n => (n, (penalty_minutes - n * 5).fdiv 2))

/-- `TeamStats._set_times_penalized` (team_stats.py, lines 144-146):
`minor_penalties + major_penalties`. -/
def times_penalized (major minor : Int) : Int :=
  minor + major

end EaWoc.GameTS

namespace EaWoc.League

/-- A finite sequence of `add_match` calls, in order. -/
def apply_matches (ts : TeamStats) (l : List (String × GameEA.ClubStats)) :
    TeamStats :=
  l.foldl (fun acc kv => add_match acc kv.1 kv.2) ts

end EaWoc.League

namespace EaWoc.LeagueV2

/-- The season-mutation step of `LeaguePlayer.add_game_stats` (player.py,
lines 209-216): bump `games_played` and store the game's record under its
key.  (The position-set update is keyed off the player entity and does not
touch any total.) -/
def add_game (s : SeasonStats) (key : String) (ps : GameEA.PlayerStats) :
    SeasonStats :=
  { s with
    games_played := s.games_played + 1,
    game_stats := dinsert s.game_stats key ps }

/-- A `SeasonStats` built by replaying a list of per-game records into a
fresh season-1 container. -/
def build_season (l : List (String × GameEA.PlayerStats)) : SeasonStats :=
  l.foldl (fun s kv => add_game s kv.1 kv.2) { season := 1 }

end EaWoc.LeagueV2

namespace EaWoc.Fix

open EaWoc

/-! ### Concrete test fixtures used by witnesses and counterexamples -/

/-- A complete, well-typed raw player payload (every field under its upstream
alias), used to probe the parse step. -/
def c1BasePayload : Payload :=
  [("class", JsonVal.vInt 1),
   ("position", JsonVal.vStr "center"),
   ("posSorted", JsonVal.vInt 0),
   ("playername", JsonVal.vStr "alice"),
   ("clientPlatform", JsonVal.vStr "ps5"),
   ("playerLevel", JsonVal.vInt 7),
   ("isGuest", JsonVal.vInt 0),
   ("player_dnf", JsonVal.vInt 0),
   ("pNhlOnlineGameType", JsonVal.vStr "5"),
   ("teamId", JsonVal.vInt 100),
   ("teamSide", JsonVal.vInt 0),
   ("opponentClubId", JsonVal.vStr "456"),
   ("opponentTeamId", JsonVal.vInt 200),
   ("opponentScore", JsonVal.vInt 2),
   ("score", JsonVal.vInt 3),
   ("ratingDefense", JsonVal.vFloat 50),
   ("ratingOffense", JsonVal.vFloat 60),
   ("ratingTeamplay", JsonVal.vFloat 70),
   ("toi", JsonVal.vInt 60),
   ("toiseconds", JsonVal.vInt 3600),
   ("skassists", JsonVal.vInt 1),
   ("skbs", JsonVal.vInt 0),
   ("skdeflections", JsonVal.vInt 0),
   ("skfol", JsonVal.vInt 4),
   ("skfopct", JsonVal.vFloat 50),
   ("skfow", JsonVal.vInt 4),
   ("skgiveaways", JsonVal.vInt 2),
   ("skgoals", JsonVal.vStr "12"),
   ("skgwg", JsonVal.vInt 0),
   ("skhits", JsonVal.vInt 3),
   ("skinterceptions", JsonVal.vInt 1),
   ("skpassattempts", JsonVal.vInt 20),
   ("skpasses", JsonVal.vInt 15),
   ("skpasspct", JsonVal.vFloat 75),
   ("skpenaltiesdrawn", JsonVal.vInt 0),
   ("skpim", JsonVal.vInt 2),
   ("skpkclearzone", JsonVal.vInt 0),
   ("skplusmin", JsonVal.vInt 1),
   ("skpossession", JsonVal.vInt 300),
   ("skppg", JsonVal.vInt 0),
   ("sksaucerpasses", JsonVal.vInt 0),
   ("skshg", JsonVal.vInt 0),
   ("skshotattempts", JsonVal.vInt 18),
   ("skshotonnetpct", JsonVal.vFloat 80),
   ("skshotpct", JsonVal.vFloat 10),
   ("skshots", JsonVal.vInt 15),
   ("sktakeaways", JsonVal.vInt 2),
   ("glbrksavepct", JsonVal.vFloat 0),
   ("glbrksaves", JsonVal.vInt 0),
   ("glbrkshots", JsonVal.vInt 0),
   ("gldsaves", JsonVal.vInt 0),
   ("glga", JsonVal.vInt 0),
   ("glgaa", JsonVal.vFloat 0),
   ("glpensavepct", JsonVal.vFloat 0),
   ("glpensaves", JsonVal.vInt 0),
   ("glpenshots", JsonVal.vInt 0),
   ("glpkclearzone", JsonVal.vInt 0),
   ("glpokechecks", JsonVal.vInt 0),
   ("glsavepct", JsonVal.vFloat 0),
   ("glsaves", JsonVal.vInt 0),
   ("glshots", JsonVal.vInt 0),
   ("glsoperiods", JsonVal.vInt 0)]

/-- An all-zero per-game player record; witnesses override the fields they
care about. -/
def samplePS : GameEA.PlayerStats :=
  { player_level := 0, position := "center", pos_sorted := 0,
    player_name := "p", client_platform := "ps5", player_level_display := 0,
    is_guest := 0, player_dnf := 0, pnhl_online_game_type := "5",
    team_id := 0, team_side := 0, opponent_club_id := "0",
    opponent_team_id := 0, opponent_score := 0, score := 0,
    rating_defense := 0, rating_offense := 0, rating_teamplay := 0,
    toi := 0, toi_seconds := 0,
    skassists := 0, skbs := 0, skdeflections := 0, skfol := 0, skfopct := 0,
    skfow := 0, skgiveaways := 0, skgoals := 0, skgwg := 0, skhits := 0,
    skinterceptions := 0, skpassattempts := 0, skpasses := 0, skpasspct := 0,
    skpenaltiesdrawn := 0, skpim := 0, skpkclearzone := 0, skplusmin := 0,
    skpossession := 0, skppg := 0, sksaucerpasses := 0, skshg := 0,
    skshotattempts := 0, skshotonnetpct := 0, skshotpct := 0, skshots := 0,
    sktakeaways := 0,
    glbrksavepct := 0, glbrksaves := 0, glbrkshots := 0, gldsaves := 0,
    glga := 0, glgaa := 0, glpensavepct := 0, glpensaves := 0,
    glpenshots := 0, glpkclearzone := 0, glpokechecks := 0, glsavepct := 0,
    glsaves := 0, glshots := 0, glsoperiods := 0 }

/-- An all-zero club line; witnesses override the fields they care about. -/
def sampleClub : GameEA.ClubStats :=
  { club_division := 1, cnhl_online_game_type := "5",
    goals_against_raw := 0, goals_for_raw := 0, losses := 0, result := 0,
    score := 0, score_string := "0-0", winner_by_dnf := 0,
    winner_by_goalie_dnf := 0, member_string := "m",
    passes_attempted := 0, passes_completed := 0, powerplay_goals := 0,
    powerplay_opportunities := 0, shots := 0, team_art_abbr := "t",
    team_side := 0, time_on_attack := 0, opponent_club_id := "0",
    opponent_score := 0, opponent_team_art_abbr := "o",
    details := { name := "club", club_id := 1, region_id := 1, team_id := 1,
                 custom_kit := { is_custom_team := 0, crest_asset_id := "c",
                                 use_base_asset := 1 } },
    goals := 0, goals_against := 0 }

/-- The claim C7 scenario's home club: side 0, 10 goals on 22 shots. -/
def clubA : GameEA.ClubStats :=
  { sampleClub with team_side := 0, goals := 10, shots := 22, goals_against := 11 }

/-- The claim C7 scenario's away club: side 1, 11 goals on 26 shots. -/
def clubB : GameEA.ClubStats :=
  { sampleClub with team_side := 1, goals := 11, shots := 26, goals_against := 10 }

/-- The claim C7 match: clubs "A" (home) and "B" (away). -/
def mC7 : GameEA.Match :=
  { match_id := "aaaaaaaaaaaaaaaaaaaaaaaaaaaaaaaa", timestamp := 0,
    time_ago := { number := 1, unit := "days" },
    clubs := [("A", clubA), ("B", clubB)], players := [], aggregate := [] }

/-- A player record scoring 5 goals on 10 shots. -/
def psA : GameEA.PlayerStats :=
  { samplePS with skgoals := 5, skshots := 10 }

/-- A player record scoring 2 goals on 4 shots. -/
def psB : GameEA.PlayerStats :=
  { samplePS with skgoals := 2, skshots := 4 }

/-- A match containing player "ea1" (stats `psA`) on club "club1". -/
def mW : GameEA.Match :=
  { match_id := "abc123", timestamp := 0,
    time_ago := { number := 1, unit := "days" },
    clubs := [], players := [("club1", [("ea1", psA)])], aggregate := [] }

/-- A fresh league_v2 player linked to EA id "ea1". -/
def pW : LeagueV2.LeaguePlayer :=
  { id := "u1", name := "alice", position := League.Position.center,
    current_season := 1, ea_id := some "ea1" }

/-- A 40-character match id: 32 `a`s then `11111111`. -/
def mid9a : String := "aaaaaaaaaaaaaaaaaaaaaaaaaaaaaaaa11111111"

/-- A 40-character match id agreeing with `mid9a` on the first 32 characters
but differing afterwards. -/
def mid9b : String := "aaaaaaaaaaaaaaaaaaaaaaaaaaaaaaaa22222222"

/-- First of the two colliding matches of claim C9 (player's stats `psA`). -/
def m9a : GameEA.Match :=
  { match_id := mid9a, timestamp := 0,
    time_ago := { number := 1, unit := "days" },
    clubs := [], players := [("club1", [("ea1", psA)])], aggregate := [] }

/-- Second colliding match of claim C9 (player's stats `psB`). -/
def m9b : GameEA.Match :=
  { match_id := mid9b, timestamp := 0,
    time_ago := { number := 1, unit := "days" },
    clubs := [], players := [("club1", [("ea1", psB)])], aggregate := [] }

/-- A team whose roster and management both contain player "mgr". -/
def teamW : League.LeagueTeam :=
  { id := "t1", official_name := "Sharks", league_level := League.LeagueLevel.nhl,
    current_roster := {"mgr", "skater"},
    management := [("mgr", League.ManagerRole.gm)] }

/-- A team-stats accumulator with nonzero penalty-kill totals and
shots-against, to observe that `add_match` never touches them. -/
def ts7 : League.TeamStats :=
  { penalty_kill_goals_against := 5, penalty_kill_opportunities := 7,
    shots_against := 3 }

/-- A club line with every total nonzero, for exercising `add_match`. -/
def csRich : GameEA.ClubStats :=
  { sampleClub with
    goals := 4, goals_against := 2, shots := 19,
    powerplay_goals := 1, powerplay_opportunities := 3, time_on_attack := 415 }

end EaWoc.Fix

namespace EaWoc

/-- Does an `Except` computation succeed? -/
def isOkB {ε α : Type} : Except ε α → Bool
  | Except.ok _ => true
  | Except.error _ => false

/-! ### General facts about the dict model -/

theorem dlookup_dinsert_self {κ α : Type} [DecidableEq κ]
    (l : List (κ × α)) (k : κ) (v : α) :
    dlookup (dinsert l k v) k = some v := by
  induction l with
  | nil => simp [dinsert, dlookup]
  | cons hd tl ih =>
      by_cases h : hd.1 = k
      · simp [dinsert, dlookup, h]
      · simp [dinsert, dlookup, h, ih]

theorem dinsert_of_not_mem {κ α : Type} [DecidableEq κ]
    (l : List (κ × α)) (k : κ) (v : α) (h : k ∉ l.map Prod.fst) :
    dinsert l k v = l ++ [(k, v)] := by
  induction l with
  | nil => simp [dinsert]
  | cons hd tl ih =>
      simp only [List.map_cons, List.mem_cons] at h
      push_neg at h
      simp [dinsert, Ne.symm h.1, ih h.2]

theorem countKey_dinsert_self {κ α : Type} [DecidableEq κ]
    (l : List (κ × α)) (k : κ) (v : α) :
    countKey (dinsert l k v) k = if countKey l k = 0 then 1 else countKey l k := by
  induction l with
  | nil => simp [dinsert, countKey]
  | cons hd tl ih =>
      by_cases h : hd.1 = k
      · simp [dinsert, countKey, List.filter_cons, h]
      · simp only [dinsert, if_neg h]
        simp only [countKey, List.filter_cons, h, decide_False] at ih ⊢
        simp [h, ih]

theorem countKey_nil {κ α : Type} [DecidableEq κ] (k : κ) :
    countKey ([] : List (κ × α)) k = 0 := rfl

/-- Folding the per-season add over fresh keys just appends the games. -/
theorem dvalues_append {κ α : Type} (l1 l2 : List (κ × α)) :
    dvalues (l1 ++ l2) = dvalues l1 ++ dvalues l2 := by
  simp [dvalues]

/-! ### Claim theorems -/

/-- C10: the team-level major/minor penalty decomposition returns a negative
minor-penalty count for `penalty_minutes = 3`: one 5-minute major and `-1`
minors, so `times_penalized = 0`. -/
theorem c10_negative_minor_penalties :
    GameTS.calculate_major_minor_penalties 3 = some (1, -1) ∧
    GameTS.times_penalized 1 (-1) = 0 := by
  exact ⟨rfl, rfl⟩

/-- C8: a team accumulator with zero penalty-kill opportunities reads a
penalty-kill percentage of exactly `100.0`, and a player accumulator whose
summed giveaways are zero reads a takeaway:giveaway ratio of exactly `0.0` —
defined values in both cases. -/
theorem c8_zero_denominator_defaults (ts : League.TeamStats)
    (ps : League.PlayerStats)
    (hts : ts.penalty_kill_opportunities = 0)
    (hps : League.giveaways ps = 0) :
    League.penalty_kill_percentage ts = 100 ∧
    League.takeaway_giveaway_ratio ps = 0 := by
  constructor
  · simp [League.penalty_kill_percentage, hts]
  · simp [League.takeaway_giveaway_ratio, hps]

/-- Witness for C8 on the empty accumulators. -/
theorem c8_zero_denominator_defaults_witness :
    League.penalty_kill_percentage {} = 100 ∧
    League.takeaway_giveaway_ratio {} = 0 :=
  c8_zero_denominator_defaults {} {} rfl rfl

/-- C5: for every team and every player id present in the management
mapping, `remove_roster_player` leaves `current_roster` unchanged, so a
manager id that is on the roster stays on it. -/
theorem c5_manager_roster_protection (t : League.LeagueTeam) (pid : String)
    (h : (dlookup t.management pid).isSome = true) :
    (League.remove_roster_player t pid).current_roster = t.current_roster ∧
    (pid ∈ t.current_roster →
      pid ∈ (League.remove_roster_player t pid).current_roster) := by
  unfold League.remove_roster_player
  rw [if_pos h]
  exact ⟨rfl, fun hm => hm⟩

/-- Witness for C5 on a concrete team whose roster and management share the
id "mgr". -/
theorem c5_manager_roster_protection_witness :
    (dlookup Fix.teamW.management "mgr").isSome = true ∧
    (League.remove_roster_player Fix.teamW "mgr").current_roster =
      Fix.teamW.current_roster ∧
    "mgr" ∈ (League.remove_roster_player Fix.teamW "mgr").current_roster := by
  have h : (dlookup Fix.teamW.management "mgr").isSome = true := by decide
  have hmem : "mgr" ∈ Fix.teamW.current_roster := by decide
  have hc := c5_manager_roster_protection Fix.teamW "mgr" h
  exact ⟨h, hc.1, hc.2 hmem⟩

/-- C7 counterexample: in the side-0/side-1 scenario the home and away ids
are as claimed, but `home_shooting_efficiency` is the unrounded `500/11`
(≈45.4545), not the claimed `45.45`, and `away_shooting_efficiency` is the
unrounded `550/13` (≈42.3077), not the claimed `42.31`. -/
theorem c7_counterexample :
    GameEA.home_club_id Fix.mC7 = some "A" ∧
    GameEA.away_club_id Fix.mC7 = some "B" ∧
    (GameEA.get_efficiency_metrics Fix.mC7).map
        GameEA.EfficiencyMetrics.home_shooting_efficiency = some (500 / 11 : ℚ) ∧
    (500 / 11 : ℚ) ≠ 4545 / 100 ∧
    (GameEA.get_efficiency_metrics Fix.mC7).map
        GameEA.EfficiencyMetrics.away_shooting_efficiency = some (550 / 13 : ℚ) ∧
    (550 / 13 : ℚ) ≠ 4231 / 100 := by
  have hh : GameEA.home_club Fix.mC7 = some Fix.clubA := by decide
  have ha : GameEA.away_club Fix.mC7 = some Fix.clubB := by decide
  refine ⟨by decide, by decide, ?_, by norm_num, ?_, by norm_num⟩ <;>
    · simp [GameEA.get_efficiency_metrics, hh, ha, Fix.clubA, Fix.clubB,
        Fix.sampleClub]
      norm_num

/-- C7 amended: for the claim's match the home club id is "A", the away club
id is "B", and the shooting efficiencies are the **unrounded** percentages
`10/22·100` and `11/26·100` (the analytics code applies no 2-decimal
rounding). -/
theorem c7_amended_efficiency :
    GameEA.home_club_id Fix.mC7 = some "A" ∧
    GameEA.away_club_id Fix.mC7 = some "B" ∧
    (GameEA.get_efficiency_metrics Fix.mC7).map
        GameEA.EfficiencyMetrics.home_shooting_efficiency =
      some ((10 : ℚ) / 22 * 100) ∧
    (GameEA.get_efficiency_metrics Fix.mC7).map
        GameEA.EfficiencyMetrics.away_shooting_efficiency =
      some ((11 : ℚ) / 26 * 100) := by
  have hh : GameEA.home_club Fix.mC7 = some Fix.clubA := by decide
  have ha : GameEA.away_club Fix.mC7 = some Fix.clubB := by decide
  refine ⟨by decide, by decide, ?_, ?_⟩ <;>
    simp [GameEA.get_efficiency_metrics, hh, ha, Fix.clubA, Fix.clubB,
      Fix.sampleClub]

/-- C6 counterexample: a concrete `add_match` call (every total of the added
club line nonzero) bumps `matches_played` but leaves the penalty-kill totals
and `shots_against` exactly as they were — `add_match` does not update those
running totals. -/
theorem c6_counterexample :
    (League.add_match Fix.ts7 "m1" Fix.csRich).penalty_kill_goals_against =
      Fix.ts7.penalty_kill_goals_against ∧
    (League.add_match Fix.ts7 "m1" Fix.csRich).penalty_kill_opportunities =
      Fix.ts7.penalty_kill_opportunities ∧
    (League.add_match Fix.ts7 "m1" Fix.csRich).shots_against =
      Fix.ts7.shots_against ∧
    (League.add_match Fix.ts7 "m1" Fix.csRich).matches_played =
      Fix.ts7.matches_played + 1 := by
  exact ⟨rfl, rfl, rfl, rfl⟩

/-- The whole-record pre-processing pass of `NumericValidatorBase`: looking
up any key after `handle_dashes` sees `None` exactly where the raw value was
the sentinel `"--"`, and the raw value otherwise. -/
theorem dlookup_handle_dashes (data : Payload) (k : String) :
    dlookup (GameBase.handle_dashes data) k =
      (dlookup data k).map
        (fun v => if v = JsonVal.vStr "--" then JsonVal.vNull else v) := by
  induction data with
  | nil => rfl
  | cons hd tl ih =>
      obtain ⟨k1, v1⟩ := hd
      by_cases h : k1 = k
      · subst h
        by_cases hv : v1 = JsonVal.vStr "--"
        · subst hv
          simp [GameBase.handle_dashes, dlookup]
        · simp only [GameBase.handle_dashes, List.map_cons, if_neg hv]
          simp [dlookup, hv]
      · by_cases hv : v1 = JsonVal.vStr "--"
        · subst hv
          simp only [GameBase.handle_dashes, List.map_cons] at ih ⊢
          simp [dlookup, h, ih]
        · simp only [GameBase.handle_dashes, List.map_cons, if_neg hv] at ih ⊢
          simp [dlookup, h, ih]

/-- C1 counterexample: the full raw player payload parses, but the same
payload with the sentinel `"--"` in its `skgoals` field fails validation
(`int("--")` raises) instead of producing a record with that field absent —
the `PlayerStats` parse step has no sentinel pre-processing pass. -/
theorem c1_counterexample :
    isOkB (GameEA.parsePlayerStats Fix.c1BasePayload) = true ∧
    isOkB (GameEA.parsePlayerStats
      (dinsert Fix.c1BasePayload "skgoals" (JsonVal.vStr "--"))) = false := by
  exact ⟨by decide, by decide⟩

/-- C1 amended: the `"--" → None` replacement is a whole-record pass, but it
lives only on the `NumericValidatorBase` models (`handle_dashes` rewrites
every sentinel-valued field of the record to `None` before any per-field
coercion); the `PlayerStats` model actually used by `Match`
(ea_player_stats.py) has no such pass, and a sentinel in one of its numeric
fields makes construction fail with a validation error rather than yield an
absent field. -/
theorem c1_amended_sentinel_handling :
    (∀ (data : Payload) (k : String),
        dlookup (GameBase.handle_dashes data) k =
          (dlookup data k).map
            (fun v => if v = JsonVal.vStr "--" then JsonVal.vNull else v)) ∧
    isOkB (GameEA.parsePlayerStats
      (dinsert Fix.c1BasePayload "skgoals" (JsonVal.vStr "--"))) = false := by
  exact ⟨dlookup_handle_dashes, by decide⟩

end EaWoc



namespace EaWoc

/-- Running any finite sequence of `add_match` calls: the stored totals that
`add_match` does update equal their sums over the added matches, wins and
losses count the match classifications, and the three totals `add_match`
never touches are left exactly as they started. -/
theorem apply_matches_totals :
    ∀ (l : List (String × GameEA.ClubStats)) (ts : League.TeamStats),
      (League.apply_matches ts l).matches_played = ts.matches_played + l.length ∧
      (League.apply_matches ts l).wins + (League.apply_matches ts l).losses
        = ts.wins + ts.losses + l.length ∧
      (League.apply_matches ts l).wins
        = ts.wins +
            ((l.filter fun kv => decide (kv.2.goals_against < kv.2.goals)).length : Int) ∧
      (League.apply_matches ts l).losses
        = ts.losses +
            ((l.filter fun kv => decide (kv.2.goals ≤ kv.2.goals_against)).length : Int) ∧
      (League.apply_matches ts l).goals_for
        = ts.goals_for + (l.map fun kv => kv.2.goals).sum ∧
      (League.apply_matches ts l).goals_against
        = ts.goals_against + (l.map fun kv => kv.2.goals_against).sum ∧
      (League.apply_matches ts l).shots
        = ts.shots + (l.map fun kv => kv.2.shots).sum ∧
      (League.apply_matches ts l).powerplay_goals
        = ts.powerplay_goals + (l.map fun kv => kv.2.powerplay_goals).sum ∧
      (League.apply_matches ts l).powerplay_opportunities
        = ts.powerplay_opportunities +
            (l.map fun kv => kv.2.powerplay_opportunities).sum ∧
      (League.apply_matches ts l).time_on_attack
        = ts.time_on_attack + (l.map fun kv => kv.2.time_on_attack).sum ∧
      (League.apply_matches ts l).shots_against = ts.shots_against ∧
      (League.apply_matches ts l).penalty_kill_goals_against
        = ts.penalty_kill_goals_against ∧
      (League.apply_matches ts l).penalty_kill_opportunities
        = ts.penalty_kill_opportunities := by
  intro l
  induction l with
  | nil =>
      intro ts
      simp [League.apply_matches]
  | cons hd tl ih =>
      intro ts
      obtain ⟨h1, h2, h3, h4, h5, h6, h7, h8, h9, h10, h11, h12, h13⟩ :=
        ih (League.add_match ts hd.1 hd.2)
      have e : League.apply_matches ts (hd :: tl) =
          League.apply_matches (League.add_match ts hd.1 hd.2) tl := rfl
      refine ⟨?_, ?_, ?_, ?_, ?_, ?_, ?_, ?_, ?_, ?_, ?_, ?_, ?_⟩
      · rw [e, h1]; simp [League.add_match]; ring
      · rw [e, h2]; simp only [League.add_match]
        split_ifs <;> · simp; ring
      · rw [e, h3]; simp only [League.add_match, List.filter_cons]
        by_cases hw : hd.2.goals_against < hd.2.goals
        · simp [hw, GT.gt]; ring
        · simp [hw, GT.gt]
      · rw [e, h4]; simp only [League.add_match, List.filter_cons]
        by_cases hw : hd.2.goals_against < hd.2.goals
        · have hnot : ¬ hd.2.goals ≤ hd.2.goals_against := by omega
          simp [hw, hnot, GT.gt]
        · have hle : hd.2.goals ≤ hd.2.goals_against := by omega
          simp [hw, hle, GT.gt]; ring
      · rw [e, h5]; simp [League.add_match]; ring
      · rw [e, h6]; simp [League.add_match]; ring
      · rw [e, h7]; simp [League.add_match]; ring
      · rw [e, h8]; simp [League.add_match]; ring
      · rw [e, h9]; simp [League.add_match]; ring
      · rw [e, h10]; simp [League.add_match]; ring
      · rw [e, h11]; simp [League.add_match]
      · rw [e, h12]; simp [League.add_match]
      · rw [e, h13]; simp [League.add_match]

end EaWoc

namespace EaWoc

/-- C4: starting from the empty accumulator, after every sequence of
`add_match` calls `wins + losses = matches_played`, where a match counts as a
win exactly when its goals exceed its goals-against and as a loss otherwise;
and `goal_differential` is exactly `goals_for - goals_against` at all
times. -/
theorem c4_team_stats_invariant (l : List (String × GameEA.ClubStats)) :
    (League.apply_matches {} l).wins + (League.apply_matches {} l).losses =
      (League.apply_matches {} l).matches_played ∧
    (League.apply_matches {} l).wins =
      ((l.filter fun kv => decide (kv.2.goals_against < kv.2.goals)).length : Int) ∧
    (League.apply_matches {} l).losses =
      ((l.filter fun kv => decide (kv.2.goals ≤ kv.2.goals_against)).length : Int) ∧
    ∀ ts : League.TeamStats,
      League.goal_differential ts = ts.goals_for - ts.goals_against := by
  obtain ⟨h1, h2, h3, h4, _⟩ := apply_matches_totals l {}
  refine ⟨?_, ?_, ?_, fun ts => rfl⟩
  · rw [h1, h2]; simp
  · simpa using h3
  · simpa using h4

/-- C6 amended: from the empty accumulator, after any sequence of `add_match`
calls the stored goals-for/against, shots, powerplay and time-on-attack
totals equal their per-match sums and wins/losses count the classifications —
but the penalty-kill totals and `shots_against` are never updated by
`add_match` and stay `0`. -/
theorem c6_amended_incremental_totals (l : List (String × GameEA.ClubStats)) :
    (League.apply_matches {} l).goals_for = (l.map fun kv => kv.2.goals).sum ∧
    (League.apply_matches {} l).goals_against
      = (l.map fun kv => kv.2.goals_against).sum ∧
    (League.apply_matches {} l).shots = (l.map fun kv => kv.2.shots).sum ∧
    (League.apply_matches {} l).powerplay_goals
      = (l.map fun kv => kv.2.powerplay_goals).sum ∧
    (League.apply_matches {} l).powerplay_opportunities
      = (l.map fun kv => kv.2.powerplay_opportunities).sum ∧
    (League.apply_matches {} l).time_on_attack
      = (l.map fun kv => kv.2.time_on_attack).sum ∧
    (League.apply_matches {} l).wins
      = ((l.filter fun kv => decide (kv.2.goals_against < kv.2.goals)).length : Int) ∧
    (League.apply_matches {} l).losses
      = ((l.filter fun kv => decide (kv.2.goals ≤ kv.2.goals_against)).length : Int) ∧
    (League.apply_matches {} l).matches_played = l.length ∧
    (League.apply_matches {} l).shots_against = 0 ∧
    (League.apply_matches {} l).penalty_kill_goals_against = 0 ∧
    (League.apply_matches {} l).penalty_kill_opportunities = 0 := by
  obtain ⟨h1, h2, h3, h4, h5, h6, h7, h8, h9, h10, h11, h12, h13⟩ :=
    apply_matches_totals l {}
  exact ⟨by simpa using h5, by simpa using h6, by simpa using h7,
    by simpa using h8, by simpa using h9, by simpa using h10,
    by simpa using h3, by simpa using h4, by simpa using h1,
    by simpa using h11, by simpa using h12, by simpa using h13⟩

end EaWoc

namespace EaWoc

/-- Replaying games with pairwise-distinct, fresh match keys appends them to
the per-game map in order and counts each one. -/
theorem build_season_fold (l : List (String × GameEA.PlayerStats)) :
    ∀ s0 : LeagueV2.SeasonStats,
      (l.map Prod.fst).Nodup →
      (∀ k, k ∈ l.map Prod.fst → k ∉ s0.game_stats.map Prod.fst) →
      (List.foldl (fun s kv => LeagueV2.add_game s kv.1 kv.2) s0 l).game_stats
        = s0.game_stats ++ l ∧
      (List.foldl (fun s kv => LeagueV2.add_game s kv.1 kv.2) s0 l).games_played
        = s0.games_played + l.length := by
  induction l with
  | nil =>
      intro s0 _ _
      simp
  | cons hd tl ih =>
      intro s0 hnd hdisj
      have hd_not : hd.1 ∉ s0.game_stats.map Prod.fst := hdisj hd.1 (by simp)
      have hstep : (LeagueV2.add_game s0 hd.1 hd.2).game_stats
          = s0.game_stats ++ [hd] := by
        simp [LeagueV2.add_game, dinsert_of_not_mem _ _ _ hd_not]
      have hnd0 : hd.1 ∉ tl.map Prod.fst ∧ (tl.map Prod.fst).Nodup := by
        simpa [List.nodup_cons] using hnd
      have hdisj2 : ∀ k, k ∈ tl.map Prod.fst →
          k ∉ (LeagueV2.add_game s0 hd.1 hd.2).game_stats.map Prod.fst := by
        intro k hk
        rw [hstep]
        simp only [List.map_append, List.mem_append, List.map_cons,
          List.map_nil, List.mem_singleton]
        rintro (hmem | hk1)
        · exact hdisj k (List.mem_cons_of_mem _ hk) hmem
        · exact hnd0.1 (hk1 ▸ hk)
      obtain ⟨ihg, ihn⟩ := ih (LeagueV2.add_game s0 hd.1 hd.2) hnd0.2 hdisj2
      constructor
      · rw [List.foldl_cons, ihg, hstep, List.append_assoc]
        simp
      · rw [List.foldl_cons, ihn]
        simp [LeagueV2.add_game]
        ring

/-- C2: a season built by replaying distinct games has `goals` equal to the
sum of the per-game `skgoals`, `shots` likewise, `shooting_percentage` equal
to `round(goals/shots*100, 2)` when there are shots and `0.0` when there are
none — and both `goals` and `shooting_percentage` are identical for every
insertion order of the same games. -/
theorem c2_season_totals_pure (l1 l2 : List (String × GameEA.PlayerStats))
    (hnd : (l1.map Prod.fst).Nodup) (hperm : l1.Perm l2) :
    LeagueV2.goals (LeagueV2.build_season l1)
      = (l1.map fun kv => kv.2.skgoals).sum ∧
    LeagueV2.shots (LeagueV2.build_season l1)
      = (l1.map fun kv => kv.2.skshots).sum ∧
    (LeagueV2.shots (LeagueV2.build_season l1) = 0 →
      LeagueV2.shooting_percentage (LeagueV2.build_season l1) = 0) ∧
    (0 < LeagueV2.shots (LeagueV2.build_season l1) →
      LeagueV2.shooting_percentage (LeagueV2.build_season l1) =
        pyRound2 ((LeagueV2.goals (LeagueV2.build_season l1) : ℚ) /
          (LeagueV2.shots (LeagueV2.build_season l1) : ℚ) * 100)) ∧
    LeagueV2.goals (LeagueV2.build_season l1)
      = LeagueV2.goals (LeagueV2.build_season l2) ∧
    LeagueV2.shooting_percentage (LeagueV2.build_season l1)
      = LeagueV2.shooting_percentage (LeagueV2.build_season l2) := by
  have hnd2 : (l2.map Prod.fst).Nodup :=
    ((hperm.map Prod.fst).nodup_iff).mp hnd
  have hb1 := build_season_fold l1 { season := 1 } hnd (by intro k h; simp)
  have hb2 := build_season_fold l2 { season := 1 } hnd2 (by intro k h; simp)
  have hg1 : (LeagueV2.build_season l1).game_stats = l1 := by
    simpa [LeagueV2.build_season] using hb1.1
  have hg2 : (LeagueV2.build_season l2).game_stats = l2 := by
    simpa [LeagueV2.build_season] using hb2.1
  have hgoals1 : LeagueV2.goals (LeagueV2.build_season l1)
      = (l1.map fun kv => kv.2.skgoals).sum := by
    simp only [LeagueV2.goals, hg1, dvalues, List.map_map]
    rfl
  have hgoals2 : LeagueV2.goals (LeagueV2.build_season l2)
      = (l2.map fun kv => kv.2.skgoals).sum := by
    simp only [LeagueV2.goals, hg2, dvalues, List.map_map]
    rfl
  have hshots1 : LeagueV2.shots (LeagueV2.build_season l1)
      = (l1.map fun kv => kv.2.skshots).sum := by
    simp only [LeagueV2.shots, hg1, dvalues, List.map_map]
    rfl
  have hshots2 : LeagueV2.shots (LeagueV2.build_season l2)
      = (l2.map fun kv => kv.2.skshots).sum := by
    simp only [LeagueV2.shots, hg2, dvalues, List.map_map]
    rfl
  have hgeq : LeagueV2.goals (LeagueV2.build_season l1)
      = LeagueV2.goals (LeagueV2.build_season l2) := by
    rw [hgoals1, hgoals2]
    exact (hperm.map fun kv => kv.2.skgoals).sum_eq
  have hseq : LeagueV2.shots (LeagueV2.build_season l1)
      = LeagueV2.shots (LeagueV2.build_season l2) := by
    rw [hshots1, hshots2]
    exact (hperm.map fun kv => kv.2.skshots).sum_eq
  refine ⟨hgoals1, hshots1, ?_, ?_, hgeq, ?_⟩
  · intro h0
    simp [LeagueV2.shooting_percentage, h0]
  · intro hpos
    have hne : LeagueV2.shots (LeagueV2.build_season l1) ≠ 0 := by omega
    simp [LeagueV2.shooting_percentage, hne]
  · simp [LeagueV2.shooting_percentage, hgeq, hseq]

/-- Witness for C2 on two games added in both orders. -/
theorem c2_season_totals_pure_witness :
    LeagueV2.goals (LeagueV2.build_season [("a", Fix.psA), ("b", Fix.psB)])
      = ([("a", Fix.psA), ("b", Fix.psB)].map fun kv => kv.2.skgoals).sum ∧
    LeagueV2.goals (LeagueV2.build_season [("a", Fix.psA), ("b", Fix.psB)])
      = LeagueV2.goals (LeagueV2.build_season [("b", Fix.psB), ("a", Fix.psA)]) ∧
    LeagueV2.shooting_percentage (LeagueV2.build_season [("a", Fix.psA), ("b", Fix.psB)])
      = LeagueV2.shooting_percentage
          (LeagueV2.build_season [("b", Fix.psB), ("a", Fix.psA)]) := by
  have h := c2_season_totals_pure [("a", Fix.psA), ("b", Fix.psB)]
    [("b", Fix.psB), ("a", Fix.psA)] (by decide)
    (List.Perm.swap ("b", Fix.psB) ("a", Fix.psA) [])
  exact ⟨h.1, h.2.2.2.2.1, h.2.2.2.2.2⟩

end EaWoc

namespace EaWoc

/-- One successful `add_game_stats` call, observed through the current
season: it returns `some`, leaves identity fields alone, bumps the current
season's `games_played` by one and stores the game under its match key. -/
theorem add_game_stats_observed (p : LeagueV2.LeaguePlayer) (m : GameEA.Match)
    (club_id eid : String) (cp : List (String × GameEA.PlayerStats))
    (ps : GameEA.PlayerStats) (key : String)
    (h1 : p.ea_id = some eid) (h2 : eid ≠ "")
    (h3 : dlookup m.players club_id = some cp)
    (h4 : dlookup cp eid = some ps)
    (h5 : LeagueV2.matchKey m.match_id = some key) :
    ∃ p1, LeagueV2.add_game_stats p m club_id = some p1 ∧
      p1.ea_id = p.ea_id ∧
      p1.current_season = p.current_season ∧
      LeagueV2.current_games_played p1 = LeagueV2.current_games_played p + 1 ∧
      LeagueV2.current_game_stats p1 =
        dinsert (LeagueV2.current_game_stats p) key ps := by
  cases hch : dlookup p.season_stats p.current_season with
  | some s =>
      let s1 : LeagueV2.SeasonStats :=
        { s with
          games_played := s.games_played + 1,
          game_stats := dinsert s.game_stats key ps,
          positions := insert p.position s.positions }
      refine ⟨{ p with
                season_stats := dinsert p.season_stats p.current_season s1 },
        ?_, rfl, rfl, ?_, ?_⟩
      · simp [LeagueV2.add_game_stats, h1, h2, h3, h4, h5, hch, s1]
      · simp [LeagueV2.current_games_played, dlookup_dinsert_self, hch, s1]
      · simp [LeagueV2.current_game_stats, dlookup_dinsert_self, hch, s1]
  | none =>
      let s0 : LeagueV2.SeasonStats := { season := p.current_season }
      let s1 : LeagueV2.SeasonStats :=
        { season := p.current_season,
          games_played := 0 + 1,
          game_stats := dinsert [] key ps,
          positions := insert p.position ∅ }
      refine ⟨{ p with
                season_stats :=
                  dinsert (dinsert p.season_stats p.current_season s0)
                    p.current_season s1 },
        ?_, rfl, rfl, ?_, ?_⟩
      · simp [LeagueV2.add_game_stats, h1, h2, h3, h4, h5, hch,
          dlookup_dinsert_self, s0, s1]
      · simp [LeagueV2.current_games_played, dlookup_dinsert_self, hch, s1]
      · simp [LeagueV2.current_game_stats, dlookup_dinsert_self, hch, s1, dinsert]

end EaWoc

namespace EaWoc

/-- The game key of `add_game_stats` depends only on the first 32 characters
of the match id. -/
theorem matchKey_take32 (s1 s2 : String)
    (h : s1.toList.take 32 = s2.toList.take 32) :
    LeagueV2.matchKey s1 = LeagueV2.matchKey s2 := by
  simp only [LeagueV2.matchKey]
  rw [h]

/-- C3: when a player's EA id appears in the match's player map for the given
club, calling `add_game_stats` twice with that same match and club adds 2 to
the current season's `games_played` — the duplicate is counted again, not
deduplicated — while `game_stats` holds exactly one entry for that match
key. -/
theorem c3_duplicate_add_counts_twice (p : LeagueV2.LeaguePlayer)
    (m : GameEA.Match) (club_id eid : String)
    (cp : List (String × GameEA.PlayerStats)) (ps : GameEA.PlayerStats)
    (key : String)
    (h1 : p.ea_id = some eid) (h2 : eid ≠ "")
    (h3 : dlookup m.players club_id = some cp)
    (h4 : dlookup cp eid = some ps)
    (h5 : LeagueV2.matchKey m.match_id = some key)
    (h6 : countKey (LeagueV2.current_game_stats p) key ≤ 1) :
    ∃ p2, (LeagueV2.add_game_stats p m club_id).bind
            (fun p1 => LeagueV2.add_game_stats p1 m club_id) = some p2 ∧
      LeagueV2.current_games_played p2 = LeagueV2.current_games_played p + 2 ∧
      countKey (LeagueV2.current_game_stats p2) key = 1 ∧
      dlookup (LeagueV2.current_game_stats p2) key = some ps := by
  obtain ⟨p1, e1, hea1, _hcs1, hg1, hst1⟩ :=
    add_game_stats_observed p m club_id eid cp ps key h1 h2 h3 h4 h5
  obtain ⟨p2, e2, _hea2, _hcs2, hg2, hst2⟩ :=
    add_game_stats_observed p1 m club_id eid cp ps key (hea1.trans h1) h2 h3 h4 h5
  refine ⟨p2, ?_, ?_, ?_, ?_⟩
  · rw [e1]
    simpa using e2
  · rw [hg2, hg1]
    ring
  · rw [hst2, hst1, countKey_dinsert_self, countKey_dinsert_self]
    rcases Nat.lt_or_ge (countKey (LeagueV2.current_game_stats p) key) 1 with hlt | hge
    · have h0 : countKey (LeagueV2.current_game_stats p) key = 0 := by omega
      simp [h0]
    · have h1c : countKey (LeagueV2.current_game_stats p) key = 1 := by omega
      simp [h1c]
  · rw [hst2]
    exact dlookup_dinsert_self _ _ _

end EaWoc

namespace EaWoc

/-- Witness for C3: a fresh player, one match, two identical
`add_game_stats` calls. -/
theorem c3_duplicate_add_counts_twice_witness :
    ∃ p2, (LeagueV2.add_game_stats Fix.pW Fix.mW "club1").bind
            (fun p1 => LeagueV2.add_game_stats p1 Fix.mW "club1") = some p2 ∧
      LeagueV2.current_games_played p2
        = LeagueV2.current_games_played Fix.pW + 2 ∧
      countKey (LeagueV2.current_game_stats p2)
        "abc12300000000000000000000000000" = 1 ∧
      dlookup (LeagueV2.current_game_stats p2)
        "abc12300000000000000000000000000" = some Fix.psA :=
  c3_duplicate_add_counts_twice Fix.pW Fix.mW "club1" "ea1"
    [("ea1", Fix.psA)] Fix.psA "abc12300000000000000000000000000"
    rfl (by decide) (by decide) (by decide) (by decide) (by decide)

/-- C9: the stored game key is a UUID built from only the first 32 characters
of the match id (right-padded with '0'), so two distinct matches agreeing on
those characters collide: adding both stores them under one key — the second
entry overwrites the first — while `games_played` counts both. -/
theorem c9_match_key_collision (p : LeagueV2.LeaguePlayer)
    (m1 m2 : GameEA.Match) (club_id eid : String)
    (cp1 cp2 : List (String × GameEA.PlayerStats))
    (ps1 ps2 : GameEA.PlayerStats) (key : String)
    (_hne : m1.match_id ≠ m2.match_id)
    (hpre : m1.match_id.toList.take 32 = m2.match_id.toList.take 32)
    (h1 : p.ea_id = some eid) (h2 : eid ≠ "")
    (h3a : dlookup m1.players club_id = some cp1)
    (h4a : dlookup cp1 eid = some ps1)
    (h3b : dlookup m2.players club_id = some cp2)
    (h4b : dlookup cp2 eid = some ps2)
    (h5 : LeagueV2.matchKey m1.match_id = some key)
    (h6 : countKey (LeagueV2.current_game_stats p) key ≤ 1) :
    LeagueV2.matchKey m2.match_id = some key ∧
    ∃ p2, (LeagueV2.add_game_stats p m1 club_id).bind
            (fun p1 => LeagueV2.add_game_stats p1 m2 club_id) = some p2 ∧
      LeagueV2.current_games_played p2 = LeagueV2.current_games_played p + 2 ∧
      countKey (LeagueV2.current_game_stats p2) key = 1 ∧
      dlookup (LeagueV2.current_game_stats p2) key = some ps2 := by
  have hk2 : LeagueV2.matchKey m2.match_id = some key :=
    (matchKey_take32 m1.match_id m2.match_id hpre) ▸ h5
  obtain ⟨p1, e1, hea1, _hcs1, hg1, hst1⟩ :=
    add_game_stats_observed p m1 club_id eid cp1 ps1 key h1 h2 h3a h4a h5
  obtain ⟨p2, e2, _hea2, _hcs2, hg2, hst2⟩ :=
    add_game_stats_observed p1 m2 club_id eid cp2 ps2 key
      (hea1.trans h1) h2 h3b h4b hk2
  refine ⟨hk2, p2, ?_, ?_, ?_, ?_⟩
  · rw [e1]
    simpa using e2
  · rw [hg2, hg1]
    ring
  · rw [hst2, hst1, countKey_dinsert_self, countKey_dinsert_self]
    rcases Nat.lt_or_ge (countKey (LeagueV2.current_game_stats p) key) 1 with hlt | hge
    · have h0 : countKey (LeagueV2.current_game_stats p) key = 0 := by omega
      simp [h0]
    · have h1c : countKey (LeagueV2.current_game_stats p) key = 1 := by omega
      simp [h1c]
  · rw [hst2]
    exact dlookup_dinsert_self _ _ _

/-- Witness for C9: two 40-character match ids agreeing on their first 32
characters; the second game's stats end up as the only entry under the shared
key while both games are counted. -/
theorem c9_match_key_collision_witness :
    LeagueV2.matchKey Fix.mid9b =
      some "aaaaaaaaaaaaaaaaaaaaaaaaaaaaaaaa" ∧
    ∃ p2, (LeagueV2.add_game_stats Fix.pW Fix.m9a "club1").bind
            (fun p1 => LeagueV2.add_game_stats p1 Fix.m9b "club1") = some p2 ∧
      LeagueV2.current_games_played p2
        = LeagueV2.current_games_played Fix.pW + 2 ∧
      countKey (LeagueV2.current_game_stats p2)
        "aaaaaaaaaaaaaaaaaaaaaaaaaaaaaaaa" = 1 ∧
      dlookup (LeagueV2.current_game_stats p2)
        "aaaaaaaaaaaaaaaaaaaaaaaaaaaaaaaa" = some Fix.psB :=
  c9_match_key_collision Fix.pW Fix.m9a Fix.m9b "club1" "ea1"
    [("ea1", Fix.psA)] [("ea1", Fix.psB)] Fix.psA Fix.psB
    "aaaaaaaaaaaaaaaaaaaaaaaaaaaaaaaa"
    (by decide) (by decide) rfl (by decide) (by decide) (by decide)
    (by decide) (by decide) (by decide) (by decide)

end EaWoc
